import Mathlib

/-!
Verification of the field-selection and aggregation-resolution engine of the
`below dump` subcommand (src/below/dump/src/command.rs).

The engine's generic core (the `DumpOptionField` sum type, the priority-ordered
string resolution, and the `expand_fields` flattening) is embedded directly from
the source.  The per-domain field-identifier enumerations live in the `model`
crate, and the string conversions come from `below_derive` macros; both are
code of this repository that is not part of the supplied source file, so they
are modelled from the spec where needed (each such definition says so in its
doc comment).
-/

/-- Modelled from the spec: case-insensitive parsing lowers the token first
(Rust's `str::to_lowercase`), embedded as a character-wise lowering so that it
is kernel-computable. -/
def to_lowercase (s : String) : String := ⟨s.data.map Char.toLower⟩

/-- Modelled from the spec: the `CommonField` enumeration of the dump crate
root (not in the supplied source).  The spec requires "at minimum: a
human-readable datetime and a numeric timestamp" shared by every domain; the
source references exactly the variants `Datetime` and `Timestamp`. -/
inductive CommonField where
  | Datetime
  | Timestamp
deriving DecidableEq, Fintype

/-- Modelled from the spec: enumeration of all `CommonField`s in declared
order (the host's `enum_iterator::all::<CommonField>()`). -/
def CommonField.all : List CommonField := [.Datetime, .Timestamp]

/-- Modelled from the spec: canonical lower-case short name of a common field
(the derived `ToString`). -/
def CommonField.to_string : CommonField → String
  | .Datetime => "datetime"
  | .Timestamp => "timestamp"

/-- Modelled from the spec: case-insensitive parse of a common field from its
canonical name (the derived `FromStr`); `none` models the `Err` case. -/
def CommonField.from_str (s : String) : Option CommonField :=
  CommonField.all.find? (fun c => c.to_string == to_lowercase s)

/-- `DumpField` of the dump crate root: a leaf field, either a common field or
a domain field identifier. -/
inductive DumpField (F : Type) where
  | Common (c : CommonField)
  | FieldId (f : F)
deriving DecidableEq, Fintype

/-- The `AggField` trait: a field that represents a group of related FieldIds
of a Queriable, expanded by `expand(&self, detail: bool) -> Vec<F>`. -/
class AggField (F : Type) (A : Type) where
  expand : A → Bool → List F

/-- Generic representation of fields accepted by different dump subcommands:
either an aggregation of multiple FieldIds, or a "unit" field which could be
either a CommonField or a FieldId. -/
inductive DumpOptionField (F : Type) (A : Type) where
  | Unit (u : DumpField F)
  | Agg (a : A)
deriving DecidableEq, Fintype

/-- `expand_fields`: expand the Agg fields and collect them with other Unit
fields.  Embeds the source's loop (`res.push` / `res.extend`) as a left fold
over the input list. -/
def expand_fields {F A : Type} [AggField F A]
    (fields : List (DumpOptionField F A)) (detail : Bool) : List (DumpField F) :=
  fields.foldl
    (fun res field =>
      match field with
      | .Unit u => res ++ [u]
      | .Agg agg => res ++ (AggField.expand agg detail).map DumpField.FieldId)
    []

/-- `DumpOptionField::from_str`: priority order is CommonField, AggField, then
FieldId; `bail!("Variant not found: {}", s)` when all three fail.  The `A` and
`F` parsers are the generic `FromStr` bounds of the source, passed as
functions; `CommonField::from_str` is the fixed common-field parser. -/
def DumpOptionField.from_str {F A : Type}
    (agg_from_str : String → Option A) (field_from_str : String → Option F)
    (s : String) : Except String (DumpOptionField F A) :=
  match CommonField.from_str s with
  | some common => .ok (.Unit (.Common common))
  | none =>
    match agg_from_str s with
    | some agg => .ok (.Agg agg)
    | none =>
      match field_from_str s with
      | some field_id => .ok (.Unit (.FieldId field_id))
      | none => .error ("Variant not found: " ++ s)

/-- `DumpOptionField`'s `ToString`: a unit common field renders as the common
field's name, a unit field id as the leaf's name, an aggregation as the group's
own name. -/
def DumpOptionField.to_string {F A : Type}
    (field_to_string : F → String) (agg_to_string : A → String) :
    DumpOptionField F A → String
  | .Unit (.Common common) => common.to_string
  | .Unit (.FieldId field_id) => field_to_string field_id
  | .Agg agg => agg_to_string agg

/-- The source's `join` helper: stringified items joined with `", "` (the
semantics of `Vec::join` on the mapped strings). -/
def join : List String → String
  | [] => ""
  | [s] => s
  | s :: rest => s ++ ", " ++ join rest

/-- `join` after mapping a `to_string` function, as the source's generic
`join(iter)` does. -/
def join_map {α : Type} (f : α → String) (l : List α) : String :=
  join (l.map f)

/-! ## System domain -/

/-- Modelled from the spec: `model::SingleCpuModelFieldId` (the model crate is
an external collaborator; its enumeration is opaque, finite and closed).  The
variants are those the dump command references: the per-core index `Idx` and
the curated cpu fields. -/
inductive SingleCpuModelFieldId where
  | Idx
  | UsagePct
  | UserPct
  | SystemPct
deriving DecidableEq, Fintype

/-- Modelled from the spec: `enum_iterator::all::<SingleCpuModelFieldId>()` in
declared order. -/
def SingleCpuModelFieldId.all : List SingleCpuModelFieldId :=
  [.Idx, .UsagePct, .UserPct, .SystemPct]

/-- Modelled from the spec: canonical lower-case short names. -/
def SingleCpuModelFieldId.to_string : SingleCpuModelFieldId → String
  | .Idx => "idx"
  | .UsagePct => "usage_pct"
  | .UserPct => "user_pct"
  | .SystemPct => "system_pct"

/-- Modelled from the spec: `model::MemoryModelFieldId`, variants referenced
by the dump command. -/
inductive MemoryModelFieldId where
  | Total
  | Free
deriving DecidableEq, Fintype

/-- Modelled from the spec: declared-order enumeration. -/
def MemoryModelFieldId.all : List MemoryModelFieldId := [.Total, .Free]

/-- Modelled from the spec: canonical lower-case short names. -/
def MemoryModelFieldId.to_string : MemoryModelFieldId → String
  | .Total => "total"
  | .Free => "free"

/-- Modelled from the spec: `model::VmModelFieldId`; the dump command
references no individual variant, so representative ones stand for the
non-empty closed enumeration. -/
inductive VmModelFieldId where
  | PgpginPerSec
  | PgpgoutPerSec
deriving DecidableEq, Fintype

/-- Modelled from the spec: declared-order enumeration. -/
def VmModelFieldId.all : List VmModelFieldId := [.PgpginPerSec, .PgpgoutPerSec]

/-- Modelled from the spec: canonical lower-case short names. -/
def VmModelFieldId.to_string : VmModelFieldId → String
  | .PgpginPerSec => "pgpgin_per_sec"
  | .PgpgoutPerSec => "pgpgout_per_sec"

/-- Modelled from the spec: `model::ProcStatModelFieldId`; representative
variants for the non-empty closed enumeration. -/
inductive ProcStatModelFieldId where
  | TotalProcesses
  | RunningProcesses
deriving DecidableEq, Fintype

/-- Modelled from the spec: declared-order enumeration. -/
def ProcStatModelFieldId.all : List ProcStatModelFieldId :=
  [.TotalProcesses, .RunningProcesses]

/-- Modelled from the spec: canonical lower-case short names. -/
def ProcStatModelFieldId.to_string : ProcStatModelFieldId → String
  | .TotalProcesses => "total_processes"
  | .RunningProcesses => "running_processes"

/-- Modelled from the spec: `model::SystemModelFieldId`, the system domain's
field-identifier sum over its sub-models plus the scalar fields the dump
command references. -/
inductive SystemModelFieldId where
  | Hostname
  | Cpu (f : SingleCpuModelFieldId)
  | Mem (f : MemoryModelFieldId)
  | Vm (f : VmModelFieldId)
  | Stat (f : ProcStatModelFieldId)
  | KernelVersion
  | OsRelease
deriving DecidableEq, Fintype

/-- Modelled from the spec: `enum_iterator::all::<SystemModelFieldId>()` in
declared order, covering every variant. -/
def SystemModelFieldId.all : List SystemModelFieldId :=
  [.Hostname]
    ++ SingleCpuModelFieldId.all.map .Cpu
    ++ MemoryModelFieldId.all.map .Mem
    ++ VmModelFieldId.all.map .Vm
    ++ ProcStatModelFieldId.all.map .Stat
    ++ [.KernelVersion, .OsRelease]

/-- Modelled from the spec: canonical dotted lower-case names
(e.g. `cpu.usage_pct`), as used in the spec's scenarios. -/
def SystemModelFieldId.to_string : SystemModelFieldId → String
  | .Hostname => "hostname"
  | .Cpu f => "cpu." ++ f.to_string
  | .Mem f => "mem." ++ f.to_string
  | .Vm f => "vm." ++ f.to_string
  | .Stat f => "stat." ++ f.to_string
  | .KernelVersion => "kernel_version"
  | .OsRelease => "os_release"

/-- Modelled from the spec: the derived `FromStr` of `SystemModelFieldId`,
a case-insensitive match of the canonical name. -/
def SystemModelFieldId.from_str (s : String) : Option SystemModelFieldId :=
  SystemModelFieldId.all.find? (fun f => f.to_string == to_lowercase s)

/-- `SystemAggField`: the four sub-model groups of SystemModel (from the
source). -/
inductive SystemAggField where
  | Cpu
  | Mem
  | Vm
  | Stat
deriving DecidableEq, Fintype

/-- Modelled from the spec: `enum_iterator`-style enumeration of the group
names (used only to quantify over the groups). -/
def SystemAggField.all : List SystemAggField := [.Cpu, .Mem, .Vm, .Stat]

/-- Modelled from the spec: the derived `EnumToString` of `SystemAggField`
(lower-case variant names). -/
def SystemAggField.to_string : SystemAggField → String
  | .Cpu => "cpu"
  | .Mem => "mem"
  | .Vm => "vm"
  | .Stat => "stat"

/-- Modelled from the spec: the derived `EnumFromStr` of `SystemAggField`,
a case-insensitive match of the group name. -/
def SystemAggField.from_str (s : String) : Option SystemAggField :=
  SystemAggField.all.find? (fun a => a.to_string == to_lowercase s)

/-- `SystemAggField::expand` (from the source): with detail, each group maps
its sub-model's full enumeration (cpu filtering out the always-aggregated
`Idx`); without detail, the curated default fields per group. -/
def SystemAggField.expand : SystemAggField → Bool → List SystemModelFieldId
  | .Cpu, true =>
    (SingleCpuModelFieldId.all.filter (fun v => v ≠ .Idx)).map SystemModelFieldId.Cpu
  | .Mem, true => MemoryModelFieldId.all.map SystemModelFieldId.Mem
  | .Vm, true => VmModelFieldId.all.map SystemModelFieldId.Vm
  | .Stat, true => ProcStatModelFieldId.all.map SystemModelFieldId.Stat
  | .Cpu, false =>
    [SingleCpuModelFieldId.UsagePct, .UserPct, .SystemPct].map SystemModelFieldId.Cpu
  | .Mem, false => [MemoryModelFieldId.Total, .Free].map SystemModelFieldId.Mem
  | .Vm, false => VmModelFieldId.all.map SystemModelFieldId.Vm
  | .Stat, false => ProcStatModelFieldId.all.map SystemModelFieldId.Stat

instance : AggField SystemModelFieldId SystemAggField := ⟨SystemAggField.expand⟩

/-- `SystemOptionField = DumpOptionField<SystemModelFieldId, SystemAggField>`. -/
abbrev SystemOptionField := DumpOptionField SystemModelFieldId SystemAggField

/-- The system domain's `from_str`, instantiating the generic resolver with
the domain's two parsers (as clap does through the `FromStr` bounds). -/
def system_from_str (s : String) : Except String SystemOptionField :=
  DumpOptionField.from_str SystemAggField.from_str SystemModelFieldId.from_str s

/-- `DEFAULT_SYSTEM_FIELDS` (from the source). -/
def DEFAULT_SYSTEM_FIELDS : List SystemOptionField :=
  [ .Unit (.FieldId .Hostname),
    .Unit (.Common .Datetime),
    .Agg .Cpu,
    .Agg .Mem,
    .Agg .Vm,
    .Unit (.FieldId .KernelVersion),
    .Unit (.FieldId .OsRelease),
    .Agg .Stat,
    .Unit (.Common .Timestamp) ]

/-- The system option-field renderer. -/
def SystemOptionField.to_string (f : SystemOptionField) : String :=
  DumpOptionField.to_string SystemModelFieldId.to_string SystemAggField.to_string f

/-! ## Disk domain -/

/-- Modelled from the spec: `model::SingleDiskModelFieldId`, variants
referenced by the dump command (group expansions and default list). -/
inductive SingleDiskModelFieldId where
  | Name
  | DiskTotalBytesPerSec
  | Major
  | Minor
  | ReadBytesPerSec
  | ReadCompleted
  | ReadMerged
  | ReadSectors
  | TimeSpendReadMs
  | WriteBytesPerSec
  | WriteCompleted
  | WriteMerged
  | WriteSectors
  | TimeSpendWriteMs
  | DiscardBytesPerSec
  | DiscardCompleted
  | DiscardMerged
  | DiscardSectors
  | TimeSpendDiscardMs
  | DiskUsage
  | PartitionSize
  | FilesystemType
deriving DecidableEq, Fintype

/-- Modelled from the spec: declared-order enumeration. -/
def SingleDiskModelFieldId.all : List SingleDiskModelFieldId :=
  [.Name, .DiskTotalBytesPerSec, .Major, .Minor,
   .ReadBytesPerSec, .ReadCompleted, .ReadMerged, .ReadSectors, .TimeSpendReadMs,
   .WriteBytesPerSec, .WriteCompleted, .WriteMerged, .WriteSectors, .TimeSpendWriteMs,
   .DiscardBytesPerSec, .DiscardCompleted, .DiscardMerged, .DiscardSectors,
   .TimeSpendDiscardMs, .DiskUsage, .PartitionSize, .FilesystemType]

/-- Modelled from the spec: canonical lower-case short names. -/
def SingleDiskModelFieldId.to_string : SingleDiskModelFieldId → String
  | .Name => "name"
  | .DiskTotalBytesPerSec => "disk_total_bytes_per_sec"
  | .Major => "major"
  | .Minor => "minor"
  | .ReadBytesPerSec => "read_bytes_per_sec"
  | .ReadCompleted => "read_completed"
  | .ReadMerged => "read_merged"
  | .ReadSectors => "read_sectors"
  | .TimeSpendReadMs => "time_spend_read_ms"
  | .WriteBytesPerSec => "write_bytes_per_sec"
  | .WriteCompleted => "write_completed"
  | .WriteMerged => "write_merged"
  | .WriteSectors => "write_sectors"
  | .TimeSpendWriteMs => "time_spend_write_ms"
  | .DiscardBytesPerSec => "discard_bytes_per_sec"
  | .DiscardCompleted => "discard_completed"
  | .DiscardMerged => "discard_merged"
  | .DiscardSectors => "discard_sectors"
  | .TimeSpendDiscardMs => "time_spend_discard_ms"
  | .DiskUsage => "disk_usage"
  | .PartitionSize => "partition_size"
  | .FilesystemType => "filesystem_type"

/-- `DiskAggField` (from the source). -/
inductive DiskAggField where
  | Read
  | Write
  | Discard
  | FsInfo
deriving DecidableEq, Fintype

/-- Modelled from the spec: enumeration of the disk groups. -/
def DiskAggField.all : List DiskAggField := [.Read, .Write, .Discard, .FsInfo]

/-- Modelled from the spec: the derived `EnumToString` (snake-case variant
names). -/
def DiskAggField.to_string : DiskAggField → String
  | .Read => "read"
  | .Write => "write"
  | .Discard => "discard"
  | .FsInfo => "fs_info"

/-- `DiskAggField::expand` (from the source): the detail flag is ignored
(`_detail`). -/
def DiskAggField.expand : DiskAggField → Bool → List SingleDiskModelFieldId
  | .Read, _ =>
    [.ReadBytesPerSec, .ReadCompleted, .ReadMerged, .ReadSectors, .TimeSpendReadMs]
  | .Write, _ =>
    [.WriteBytesPerSec, .WriteCompleted, .WriteMerged, .WriteSectors, .TimeSpendWriteMs]
  | .Discard, _ =>
    [.DiscardBytesPerSec, .DiscardCompleted, .DiscardMerged, .DiscardSectors,
     .TimeSpendDiscardMs]
  | .FsInfo, _ => [.DiskUsage, .PartitionSize, .FilesystemType]

instance : AggField SingleDiskModelFieldId DiskAggField := ⟨DiskAggField.expand⟩

/-- `DiskOptionField = DumpOptionField<SingleDiskModelFieldId, DiskAggField>`. -/
abbrev DiskOptionField := DumpOptionField SingleDiskModelFieldId DiskAggField

/-- `DEFAULT_DISK_FIELDS` (from the source). -/
def DEFAULT_DISK_FIELDS : List DiskOptionField :=
  [ .Unit (.Common .Datetime),
    .Unit (.FieldId .Name),
    .Unit (.FieldId .DiskTotalBytesPerSec),
    .Unit (.FieldId .Major),
    .Unit (.FieldId .Minor),
    .Agg .Read,
    .Agg .Write,
    .Agg .Discard,
    .Agg .FsInfo,
    .Unit (.Common .Timestamp) ]

/-- The disk option-field renderer. -/
def DiskOptionField.to_string (f : DiskOptionField) : String :=
  DumpOptionField.to_string SingleDiskModelFieldId.to_string DiskAggField.to_string f

/-! ## Btrfs domain -/

/-- Modelled from the spec: `model::BtrfsModelFieldId`, variants referenced by
the dump command. -/
inductive BtrfsModelFieldId where
  | Name
  | DiskFraction
  | DiskBytes
deriving DecidableEq, Fintype

/-- Modelled from the spec: declared-order enumeration. -/
def BtrfsModelFieldId.all : List BtrfsModelFieldId :=
  [.Name, .DiskFraction, .DiskBytes]

/-- Modelled from the spec: canonical lower-case short names. -/
def BtrfsModelFieldId.to_string : BtrfsModelFieldId → String
  | .Name => "name"
  | .DiskFraction => "disk_fraction"
  | .DiskBytes => "disk_bytes"

/-- `BtrfsAggField` (from the source). -/
inductive BtrfsAggField where
  | DiskUsage
deriving DecidableEq, Fintype

/-- Modelled from the spec: enumeration of the btrfs groups. -/
def BtrfsAggField.all : List BtrfsAggField := [.DiskUsage]

/-- Modelled from the spec: the derived `EnumToString`. -/
def BtrfsAggField.to_string : BtrfsAggField → String
  | .DiskUsage => "disk_usage"

/-- `BtrfsAggField::expand` (from the source): the detail flag is ignored. -/
def BtrfsAggField.expand : BtrfsAggField → Bool → List BtrfsModelFieldId
  | .DiskUsage, _ => [.DiskFraction, .DiskBytes]

instance : AggField BtrfsModelFieldId BtrfsAggField := ⟨BtrfsAggField.expand⟩

/-- `BtrfsOptionField = DumpOptionField<BtrfsModelFieldId, BtrfsAggField>`. -/
abbrev BtrfsOptionField := DumpOptionField BtrfsModelFieldId BtrfsAggField

/-- `DEFAULT_BTRFS_FIELDS` (from the source). -/
def DEFAULT_BTRFS_FIELDS : List BtrfsOptionField :=
  [ .Unit (.Common .Datetime),
    .Unit (.FieldId .Name),
    .Agg .DiskUsage,
    .Unit (.Common .Timestamp) ]

/-- The btrfs option-field renderer. -/
def BtrfsOptionField.to_string (f : BtrfsOptionField) : String :=
  DumpOptionField.to_string BtrfsModelFieldId.to_string BtrfsAggField.to_string f

/-! ## Process domain -/

/-- Modelled from the spec: `model::ProcessCpuModelFieldId`; referenced and
representative variants. -/
inductive ProcessCpuModelFieldId where
  | UsagePct
  | UserPct
  | SystemPct
deriving DecidableEq, Fintype

/-- Modelled from the spec: declared-order enumeration. -/
def ProcessCpuModelFieldId.all : List ProcessCpuModelFieldId :=
  [.UsagePct, .UserPct, .SystemPct]

/-- Modelled from the spec: canonical lower-case short names. -/
def ProcessCpuModelFieldId.to_string : ProcessCpuModelFieldId → String
  | .UsagePct => "usage_pct"
  | .UserPct => "user_pct"
  | .SystemPct => "system_pct"

/-- Modelled from the spec: `model::ProcessMemoryModelFieldId`; referenced and
representative variants. -/
inductive ProcessMemoryModelFieldId where
  | RssBytes
  | VmSize
deriving DecidableEq, Fintype

/-- Modelled from the spec: declared-order enumeration. -/
def ProcessMemoryModelFieldId.all : List ProcessMemoryModelFieldId :=
  [.RssBytes, .VmSize]

/-- Modelled from the spec: canonical lower-case short names. -/
def ProcessMemoryModelFieldId.to_string : ProcessMemoryModelFieldId → String
  | .RssBytes => "rss_bytes"
  | .VmSize => "vm_size"

/-- Modelled from the spec: `model::ProcessIoModelFieldId`; referenced and
representative variants (the spec's example command uses
`io.rwbytes_per_sec`). -/
inductive ProcessIoModelFieldId where
  | RbytesPerSec
  | WbytesPerSec
  | RwbytesPerSec
deriving DecidableEq, Fintype

/-- Modelled from the spec: declared-order enumeration. -/
def ProcessIoModelFieldId.all : List ProcessIoModelFieldId :=
  [.RbytesPerSec, .WbytesPerSec, .RwbytesPerSec]

/-- Modelled from the spec: canonical lower-case short names. -/
def ProcessIoModelFieldId.to_string : ProcessIoModelFieldId → String
  | .RbytesPerSec => "rbytes_per_sec"
  | .WbytesPerSec => "wbytes_per_sec"
  | .RwbytesPerSec => "rwbytes_per_sec"

/-- Modelled from the spec: `model::SingleProcessModelFieldId`, the process
domain's field-identifier sum plus the scalar fields the dump command
references. -/
inductive SingleProcessModelFieldId where
  | Pid
  | Ppid
  | Comm
  | State
  | Cpu (f : ProcessCpuModelFieldId)
  | Mem (f : ProcessMemoryModelFieldId)
  | Io (f : ProcessIoModelFieldId)
  | UptimeSecs
  | Cgroup
  | Cmdline
  | ExePath
deriving DecidableEq, Fintype

/-- Modelled from the spec: declared-order enumeration covering every
variant. -/
def SingleProcessModelFieldId.all : List SingleProcessModelFieldId :=
  [.Pid, .Ppid, .Comm, .State]
    ++ ProcessCpuModelFieldId.all.map .Cpu
    ++ ProcessMemoryModelFieldId.all.map .Mem
    ++ ProcessIoModelFieldId.all.map .Io
    ++ [.UptimeSecs, .Cgroup, .Cmdline, .ExePath]

/-- Modelled from the spec: canonical dotted lower-case names. -/
def SingleProcessModelFieldId.to_string : SingleProcessModelFieldId → String
  | .Pid => "pid"
  | .Ppid => "ppid"
  | .Comm => "comm"
  | .State => "state"
  | .Cpu f => "cpu." ++ f.to_string
  | .Mem f => "mem." ++ f.to_string
  | .Io f => "io." ++ f.to_string
  | .UptimeSecs => "uptime_secs"
  | .Cgroup => "cgroup"
  | .Cmdline => "cmdline"
  | .ExePath => "exe_path"

/-- `ProcessAggField` (from the source). -/
inductive ProcessAggField where
  | Cpu
  | Mem
  | Io
deriving DecidableEq, Fintype

/-- Modelled from the spec: enumeration of the process groups. -/
def ProcessAggField.all : List ProcessAggField := [.Cpu, .Mem, .Io]

/-- Modelled from the spec: the derived `EnumToString`. -/
def ProcessAggField.to_string : ProcessAggField → String
  | .Cpu => "cpu"
  | .Mem => "mem"
  | .Io => "io"

/-- `ProcessAggField::expand` (from the source): full sub-model enumerations
with detail, curated defaults without. -/
def ProcessAggField.expand : ProcessAggField → Bool → List SingleProcessModelFieldId
  | .Cpu, true => ProcessCpuModelFieldId.all.map SingleProcessModelFieldId.Cpu
  | .Mem, true => ProcessMemoryModelFieldId.all.map SingleProcessModelFieldId.Mem
  | .Io, true => ProcessIoModelFieldId.all.map SingleProcessModelFieldId.Io
  | .Cpu, false => [.Cpu .UsagePct]
  | .Mem, false => [.Mem .RssBytes]
  | .Io, false => [.Io .RbytesPerSec, .Io .WbytesPerSec]

instance : AggField SingleProcessModelFieldId ProcessAggField := ⟨ProcessAggField.expand⟩

/-- `ProcessOptionField`. -/
abbrev ProcessOptionField := DumpOptionField SingleProcessModelFieldId ProcessAggField

/-- `DEFAULT_PROCESS_FIELDS` (from the source). -/
def DEFAULT_PROCESS_FIELDS : List ProcessOptionField :=
  [ .Unit (.Common .Datetime),
    .Unit (.FieldId .Pid),
    .Unit (.FieldId .Ppid),
    .Unit (.FieldId .Comm),
    .Unit (.FieldId .State),
    .Agg .Cpu,
    .Agg .Mem,
    .Agg .Io,
    .Unit (.FieldId .UptimeSecs),
    .Unit (.FieldId .Cgroup),
    .Unit (.Common .Timestamp),
    .Unit (.FieldId .Cmdline),
    .Unit (.FieldId .ExePath) ]

/-- The process option-field renderer. -/
def ProcessOptionField.to_string (f : ProcessOptionField) : String :=
  DumpOptionField.to_string SingleProcessModelFieldId.to_string ProcessAggField.to_string f

/-! ## Cgroup domain -/

/-- Modelled from the spec: `model::CgroupCpuModelFieldId`; referenced and
representative variants. -/
inductive CgroupCpuModelFieldId where
  | UsagePct
  | UserPct
  | SystemPct
deriving DecidableEq, Fintype

/-- Modelled from the spec: declared-order enumeration. -/
def CgroupCpuModelFieldId.all : List CgroupCpuModelFieldId :=
  [.UsagePct, .UserPct, .SystemPct]

/-- Modelled from the spec: canonical lower-case short names. -/
def CgroupCpuModelFieldId.to_string : CgroupCpuModelFieldId → String
  | .UsagePct => "usage_pct"
  | .UserPct => "user_pct"
  | .SystemPct => "system_pct"

/-- Modelled from the spec: `model::CgroupMemoryModelFieldId`; referenced and
representative variants. -/
inductive CgroupMemoryModelFieldId where
  | Total
  | Swap
deriving DecidableEq, Fintype

/-- Modelled from the spec: declared-order enumeration. -/
def CgroupMemoryModelFieldId.all : List CgroupMemoryModelFieldId := [.Total, .Swap]

/-- Modelled from the spec: canonical lower-case short names. -/
def CgroupMemoryModelFieldId.to_string : CgroupMemoryModelFieldId → String
  | .Total => "total"
  | .Swap => "swap"

/-- Modelled from the spec: `model::CgroupIoModelFieldId`; referenced and
representative variants. -/
inductive CgroupIoModelFieldId where
  | RbytesPerSec
  | WbytesPerSec
  | RwbytesPerSec
deriving DecidableEq, Fintype

/-- Modelled from the spec: declared-order enumeration. -/
def CgroupIoModelFieldId.all : List CgroupIoModelFieldId :=
  [.RbytesPerSec, .WbytesPerSec, .RwbytesPerSec]

/-- Modelled from the spec: canonical lower-case short names. -/
def CgroupIoModelFieldId.to_string : CgroupIoModelFieldId → String
  | .RbytesPerSec => "rbytes_per_sec"
  | .WbytesPerSec => "wbytes_per_sec"
  | .RwbytesPerSec => "rwbytes_per_sec"

/-- Modelled from the spec: `model::CgroupPressureModelFieldId`; referenced
and representative variants. -/
inductive CgroupPressureModelFieldId where
  | CpuSomePct
  | MemorySomePct
  | MemoryFullPct
  | IoSomePct
  | IoFullPct
deriving DecidableEq, Fintype

/-- Modelled from the spec: declared-order enumeration. -/
def CgroupPressureModelFieldId.all : List CgroupPressureModelFieldId :=
  [.CpuSomePct, .MemorySomePct, .MemoryFullPct, .IoSomePct, .IoFullPct]

/-- Modelled from the spec: canonical lower-case short names. -/
def CgroupPressureModelFieldId.to_string : CgroupPressureModelFieldId → String
  | .CpuSomePct => "cpu_some_pct"
  | .MemorySomePct => "memory_some_pct"
  | .MemoryFullPct => "memory_full_pct"
  | .IoSomePct => "io_some_pct"
  | .IoFullPct => "io_full_pct"

/-- Modelled from the spec: `model::SingleCgroupModelFieldId`, the cgroup
domain's field-identifier sum plus the scalar fields the dump command
references. -/
inductive SingleCgroupModelFieldId where
  | Name
  | InodeNumber
  | Cpu (f : CgroupCpuModelFieldId)
  | Mem (f : CgroupMemoryModelFieldId)
  | Io (f : CgroupIoModelFieldId)
  | Pressure (f : CgroupPressureModelFieldId)
deriving DecidableEq, Fintype

/-- Modelled from the spec: declared-order enumeration covering every
variant. -/
def SingleCgroupModelFieldId.all : List SingleCgroupModelFieldId :=
  [.Name, .InodeNumber]
    ++ CgroupCpuModelFieldId.all.map .Cpu
    ++ CgroupMemoryModelFieldId.all.map .Mem
    ++ CgroupIoModelFieldId.all.map .Io
    ++ CgroupPressureModelFieldId.all.map .Pressure

/-- Modelled from the spec: canonical dotted lower-case names. -/
def SingleCgroupModelFieldId.to_string : SingleCgroupModelFieldId → String
  | .Name => "name"
  | .InodeNumber => "inode_number"
  | .Cpu f => "cpu." ++ f.to_string
  | .Mem f => "mem." ++ f.to_string
  | .Io f => "io." ++ f.to_string
  | .Pressure f => "pressure." ++ f.to_string

/-- `CgroupAggField` (from the source). -/
inductive CgroupAggField where
  | Cpu
  | Mem
  | Io
  | Pressure
deriving DecidableEq, Fintype

/-- Modelled from the spec: enumeration of the cgroup groups. -/
def CgroupAggField.all : List CgroupAggField := [.Cpu, .Mem, .Io, .Pressure]

/-- Modelled from the spec: the derived `EnumToString`. -/
def CgroupAggField.to_string : CgroupAggField → String
  | .Cpu => "cpu"
  | .Mem => "mem"
  | .Io => "io"
  | .Pressure => "pressure"

/-- `CgroupAggField::expand` (from the source): full sub-model enumerations
with detail, curated defaults without. -/
def CgroupAggField.expand : CgroupAggField → Bool → List SingleCgroupModelFieldId
  | .Cpu, true => CgroupCpuModelFieldId.all.map SingleCgroupModelFieldId.Cpu
  | .Mem, true => CgroupMemoryModelFieldId.all.map SingleCgroupModelFieldId.Mem
  | .Io, true => CgroupIoModelFieldId.all.map SingleCgroupModelFieldId.Io
  | .Pressure, true =>
    CgroupPressureModelFieldId.all.map SingleCgroupModelFieldId.Pressure
  | .Cpu, false => [.Cpu .UsagePct]
  | .Mem, false => [.Mem .Total]
  | .Io, false => [.Io .RbytesPerSec, .Io .WbytesPerSec]
  | .Pressure, false =>
    [.Pressure .CpuSomePct, .Pressure .MemoryFullPct, .Pressure .IoFullPct]

instance : AggField SingleCgroupModelFieldId CgroupAggField := ⟨CgroupAggField.expand⟩

/-- `CgroupOptionField`. -/
abbrev CgroupOptionField := DumpOptionField SingleCgroupModelFieldId CgroupAggField

/-- `DEFAULT_CGROUP_FIELDS` (from the source). -/
def DEFAULT_CGROUP_FIELDS : List CgroupOptionField :=
  [ .Unit (.FieldId .Name),
    .Unit (.FieldId .InodeNumber),
    .Unit (.Common .Datetime),
    .Agg .Cpu,
    .Agg .Mem,
    .Agg .Io,
    .Agg .Pressure,
    .Unit (.Common .Timestamp) ]

/-- The cgroup option-field renderer. -/
def CgroupOptionField.to_string (f : CgroupOptionField) : String :=
  DumpOptionField.to_string SingleCgroupModelFieldId.to_string CgroupAggField.to_string f

/-! ## Iface domain -/

/-- Modelled from the spec: `model::SingleNetModelFieldId`, variants
referenced by the dump command (group expansions and default list). -/
inductive SingleNetModelFieldId where
  | Collisions
  | Multicast
  | Interface
  | RxBytesPerSec
  | TxBytesPerSec
  | ThroughputPerSec
  | RxPacketsPerSec
  | TxPacketsPerSec
  | RxBytes
  | RxCompressed
  | RxCrcErrors
  | RxDropped
  | RxErrors
  | RxFifoErrors
  | RxFrameErrors
  | RxLengthErrors
  | RxMissedErrors
  | RxNohandler
  | RxOverErrors
  | RxPackets
  | TxAbortedErrors
  | TxBytes
  | TxCarrierErrors
  | TxCompressed
  | TxDropped
  | TxErrors
  | TxFifoErrors
  | TxHeartbeatErrors
  | TxPackets
  | TxWindowErrors
deriving DecidableEq, Fintype

/-- Modelled from the spec: declared-order enumeration. -/
def SingleNetModelFieldId.all : List SingleNetModelFieldId :=
  [.Collisions, .Multicast, .Interface,
   .RxBytesPerSec, .TxBytesPerSec, .ThroughputPerSec, .RxPacketsPerSec,
   .TxPacketsPerSec,
   .RxBytes, .RxCompressed, .RxCrcErrors, .RxDropped, .RxErrors, .RxFifoErrors,
   .RxFrameErrors, .RxLengthErrors, .RxMissedErrors, .RxNohandler, .RxOverErrors,
   .RxPackets,
   .TxAbortedErrors, .TxBytes, .TxCarrierErrors, .TxCompressed, .TxDropped,
   .TxErrors, .TxFifoErrors, .TxHeartbeatErrors, .TxPackets, .TxWindowErrors]

/-- Modelled from the spec: canonical lower-case short names. -/
def SingleNetModelFieldId.to_string : SingleNetModelFieldId → String
  | .Collisions => "collisions"
  | .Multicast => "multicast"
  | .Interface => "interface"
  | .RxBytesPerSec => "rx_bytes_per_sec"
  | .TxBytesPerSec => "tx_bytes_per_sec"
  | .ThroughputPerSec => "throughput_per_sec"
  | .RxPacketsPerSec => "rx_packets_per_sec"
  | .TxPacketsPerSec => "tx_packets_per_sec"
  | .RxBytes => "rx_bytes"
  | .RxCompressed => "rx_compressed"
  | .RxCrcErrors => "rx_crc_errors"
  | .RxDropped => "rx_dropped"
  | .RxErrors => "rx_errors"
  | .RxFifoErrors => "rx_fifo_errors"
  | .RxFrameErrors => "rx_frame_errors"
  | .RxLengthErrors => "rx_length_errors"
  | .RxMissedErrors => "rx_missed_errors"
  | .RxNohandler => "rx_nohandler"
  | .RxOverErrors => "rx_over_errors"
  | .RxPackets => "rx_packets"
  | .TxAbortedErrors => "tx_aborted_errors"
  | .TxBytes => "tx_bytes"
  | .TxCarrierErrors => "tx_carrier_errors"
  | .TxCompressed => "tx_compressed"
  | .TxDropped => "tx_dropped"
  | .TxErrors => "tx_errors"
  | .TxFifoErrors => "tx_fifo_errors"
  | .TxHeartbeatErrors => "tx_heartbeat_errors"
  | .TxPackets => "tx_packets"
  | .TxWindowErrors => "tx_window_errors"

/-- `IfaceAggField` (from the source). -/
inductive IfaceAggField where
  | Rate
  | Rx
  | Tx
deriving DecidableEq, Fintype

/-- Modelled from the spec: enumeration of the iface groups. -/
def IfaceAggField.all : List IfaceAggField := [.Rate, .Rx, .Tx]

/-- Modelled from the spec: the derived `EnumToString`. -/
def IfaceAggField.to_string : IfaceAggField → String
  | .Rate => "rate"
  | .Rx => "rx"
  | .Tx => "tx"

/-- `IfaceAggField::expand` (from the source): the detail flag is ignored. -/
def IfaceAggField.expand : IfaceAggField → Bool → List SingleNetModelFieldId
  | .Rate, _ =>
    [.RxBytesPerSec, .TxBytesPerSec, .ThroughputPerSec, .RxPacketsPerSec,
     .TxPacketsPerSec]
  | .Rx, _ =>
    [.RxBytes, .RxCompressed, .RxCrcErrors, .RxDropped, .RxErrors, .RxFifoErrors,
     .RxFrameErrors, .RxLengthErrors, .RxMissedErrors, .RxNohandler, .RxOverErrors,
     .RxPackets]
  | .Tx, _ =>
    [.TxAbortedErrors, .TxBytes, .TxCarrierErrors, .TxCompressed, .TxDropped,
     .TxErrors, .TxFifoErrors, .TxHeartbeatErrors, .TxPackets, .TxWindowErrors]

instance : AggField SingleNetModelFieldId IfaceAggField := ⟨IfaceAggField.expand⟩

/-- `IfaceOptionField`. -/
abbrev IfaceOptionField := DumpOptionField SingleNetModelFieldId IfaceAggField

/-- `DEFAULT_IFACE_FIELDS` (from the source). -/
def DEFAULT_IFACE_FIELDS : List IfaceOptionField :=
  [ .Unit (.Common .Datetime),
    .Unit (.FieldId .Collisions),
    .Unit (.FieldId .Multicast),
    .Unit (.FieldId .Interface),
    .Agg .Rate,
    .Agg .Rx,
    .Agg .Tx,
    .Unit (.Common .Timestamp) ]

/-- The iface option-field renderer. -/
def IfaceOptionField.to_string (f : IfaceOptionField) : String :=
  DumpOptionField.to_string SingleNetModelFieldId.to_string IfaceAggField.to_string f

/-! ## Network and transport domains -/

/-- Modelled from the spec: `model::IpModelFieldId`; representative variants
for the non-empty closed enumeration. -/
inductive IpModelFieldId where
  | ForwardingPktsPerSec
  | InReceivesPktsPerSec
deriving DecidableEq, Fintype

/-- Modelled from the spec: declared-order enumeration. -/
def IpModelFieldId.all : List IpModelFieldId :=
  [.ForwardingPktsPerSec, .InReceivesPktsPerSec]

/-- Modelled from the spec: canonical lower-case short names. -/
def IpModelFieldId.to_string : IpModelFieldId → String
  | .ForwardingPktsPerSec => "forwarding_pkts_per_sec"
  | .InReceivesPktsPerSec => "in_receives_pkts_per_sec"

/-- Modelled from the spec: `model::Ip6ModelFieldId`; representative
variants. -/
inductive Ip6ModelFieldId where
  | InReceivesPktsPerSec
  | InDiscardsPktsPerSec
deriving DecidableEq, Fintype

/-- Modelled from the spec: declared-order enumeration. -/
def Ip6ModelFieldId.all : List Ip6ModelFieldId :=
  [.InReceivesPktsPerSec, .InDiscardsPktsPerSec]

/-- Modelled from the spec: canonical lower-case short names. -/
def Ip6ModelFieldId.to_string : Ip6ModelFieldId → String
  | .InReceivesPktsPerSec => "in_receives_pkts_per_sec"
  | .InDiscardsPktsPerSec => "in_discards_pkts_per_sec"

/-- Modelled from the spec: `model::IcmpModelFieldId`; representative
variants. -/
inductive IcmpModelFieldId where
  | InMsgsPerSec
  | OutMsgsPerSec
deriving DecidableEq, Fintype

/-- Modelled from the spec: declared-order enumeration. -/
def IcmpModelFieldId.all : List IcmpModelFieldId := [.InMsgsPerSec, .OutMsgsPerSec]

/-- Modelled from the spec: canonical lower-case short names. -/
def IcmpModelFieldId.to_string : IcmpModelFieldId → String
  | .InMsgsPerSec => "in_msgs_per_sec"
  | .OutMsgsPerSec => "out_msgs_per_sec"

/-- Modelled from the spec: `model::Icmp6ModelFieldId`; representative
variants. -/
inductive Icmp6ModelFieldId where
  | InMsgsPerSec
  | OutMsgsPerSec
deriving DecidableEq, Fintype

/-- Modelled from the spec: declared-order enumeration. -/
def Icmp6ModelFieldId.all : List Icmp6ModelFieldId := [.InMsgsPerSec, .OutMsgsPerSec]

/-- Modelled from the spec: canonical lower-case short names. -/
def Icmp6ModelFieldId.to_string : Icmp6ModelFieldId → String
  | .InMsgsPerSec => "in_msgs_per_sec"
  | .OutMsgsPerSec => "out_msgs_per_sec"

/-- Modelled from the spec: `model::TcpModelFieldId`; representative
variants. -/
inductive TcpModelFieldId where
  | ActiveOpensPerSec
  | PassiveOpensPerSec
deriving DecidableEq, Fintype

/-- Modelled from the spec: declared-order enumeration. -/
def TcpModelFieldId.all : List TcpModelFieldId :=
  [.ActiveOpensPerSec, .PassiveOpensPerSec]

/-- Modelled from the spec: canonical lower-case short names. -/
def TcpModelFieldId.to_string : TcpModelFieldId → String
  | .ActiveOpensPerSec => "active_opens_per_sec"
  | .PassiveOpensPerSec => "passive_opens_per_sec"

/-- Modelled from the spec: `model::UdpModelFieldId`; representative
variants. -/
inductive UdpModelFieldId where
  | InDatagramsPktsPerSec
  | OutDatagramsPktsPerSec
deriving DecidableEq, Fintype

/-- Modelled from the spec: declared-order enumeration. -/
def UdpModelFieldId.all : List UdpModelFieldId :=
  [.InDatagramsPktsPerSec, .OutDatagramsPktsPerSec]

/-- Modelled from the spec: canonical lower-case short names. -/
def UdpModelFieldId.to_string : UdpModelFieldId → String
  | .InDatagramsPktsPerSec => "in_datagrams_pkts_per_sec"
  | .OutDatagramsPktsPerSec => "out_datagrams_pkts_per_sec"

/-- Modelled from the spec: `model::Udp6ModelFieldId`; representative
variants. -/
inductive Udp6ModelFieldId where
  | InDatagramsPktsPerSec
  | OutDatagramsPktsPerSec
deriving DecidableEq, Fintype

/-- Modelled from the spec: declared-order enumeration. -/
def Udp6ModelFieldId.all : List Udp6ModelFieldId :=
  [.InDatagramsPktsPerSec, .OutDatagramsPktsPerSec]

/-- Modelled from the spec: canonical lower-case short names. -/
def Udp6ModelFieldId.to_string : Udp6ModelFieldId → String
  | .InDatagramsPktsPerSec => "in_datagrams_pkts_per_sec"
  | .OutDatagramsPktsPerSec => "out_datagrams_pkts_per_sec"

/-- Modelled from the spec: `model::NetworkModelFieldId`, the network/
transport domains' field-identifier sum over their sub-models. -/
inductive NetworkModelFieldId where
  | Ip (f : IpModelFieldId)
  | Ip6 (f : Ip6ModelFieldId)
  | Icmp (f : IcmpModelFieldId)
  | Icmp6 (f : Icmp6ModelFieldId)
  | Tcp (f : TcpModelFieldId)
  | Udp (f : UdpModelFieldId)
  | Udp6 (f : Udp6ModelFieldId)
deriving DecidableEq, Fintype

/-- Modelled from the spec: declared-order enumeration covering every
variant. -/
def NetworkModelFieldId.all : List NetworkModelFieldId :=
  IpModelFieldId.all.map .Ip
    ++ Ip6ModelFieldId.all.map .Ip6
    ++ IcmpModelFieldId.all.map .Icmp
    ++ Icmp6ModelFieldId.all.map .Icmp6
    ++ TcpModelFieldId.all.map .Tcp
    ++ UdpModelFieldId.all.map .Udp
    ++ Udp6ModelFieldId.all.map .Udp6

/-- Modelled from the spec: canonical dotted lower-case names. -/
def NetworkModelFieldId.to_string : NetworkModelFieldId → String
  | .Ip f => "ip." ++ f.to_string
  | .Ip6 f => "ip6." ++ f.to_string
  | .Icmp f => "icmp." ++ f.to_string
  | .Icmp6 f => "icmp6." ++ f.to_string
  | .Tcp f => "tcp." ++ f.to_string
  | .Udp f => "udp." ++ f.to_string
  | .Udp6 f => "udp6." ++ f.to_string

/-- `NetworkAggField` (from the source). -/
inductive NetworkAggField where
  | Ip
  | Ip6
  | Icmp
  | Icmp6
deriving DecidableEq, Fintype

/-- Modelled from the spec: enumeration of the network groups. -/
def NetworkAggField.all : List NetworkAggField := [.Ip, .Ip6, .Icmp, .Icmp6]

/-- Modelled from the spec: the derived `EnumToString`. -/
def NetworkAggField.to_string : NetworkAggField → String
  | .Ip => "ip"
  | .Ip6 => "ip6"
  | .Icmp => "icmp"
  | .Icmp6 => "icmp6"

/-- `NetworkAggField::expand` (from the source): each group maps its
sub-model's full enumeration; the detail flag is ignored. -/
def NetworkAggField.expand : NetworkAggField → Bool → List NetworkModelFieldId
  | .Ip, _ => IpModelFieldId.all.map NetworkModelFieldId.Ip
  | .Ip6, _ => Ip6ModelFieldId.all.map NetworkModelFieldId.Ip6
  | .Icmp, _ => IcmpModelFieldId.all.map NetworkModelFieldId.Icmp
  | .Icmp6, _ => Icmp6ModelFieldId.all.map NetworkModelFieldId.Icmp6

instance : AggField NetworkModelFieldId NetworkAggField := ⟨NetworkAggField.expand⟩

/-- `NetworkOptionField`. -/
abbrev NetworkOptionField := DumpOptionField NetworkModelFieldId NetworkAggField

/-- `DEFAULT_NETWORK_FIELDS` (from the source). -/
def DEFAULT_NETWORK_FIELDS : List NetworkOptionField :=
  [ .Unit (.Common .Datetime),
    .Agg .Ip,
    .Agg .Ip6,
    .Agg .Icmp,
    .Agg .Icmp6,
    .Unit (.Common .Timestamp) ]

/-- The network option-field renderer. -/
def NetworkOptionField.to_string (f : NetworkOptionField) : String :=
  DumpOptionField.to_string NetworkModelFieldId.to_string NetworkAggField.to_string f

/-- `TransportAggField` (from the source). -/
inductive TransportAggField where
  | Tcp
  | Udp
  | Udp6
deriving DecidableEq, Fintype

/-- Modelled from the spec: enumeration of the transport groups. -/
def TransportAggField.all : List TransportAggField := [.Tcp, .Udp, .Udp6]

/-- Modelled from the spec: the derived `EnumToString`. -/
def TransportAggField.to_string : TransportAggField → String
  | .Tcp => "tcp"
  | .Udp => "udp"
  | .Udp6 => "udp6"

/-- `TransportAggField::expand` (from the source): each group maps its
sub-model's full enumeration; the detail flag is ignored. -/
def TransportAggField.expand : TransportAggField → Bool → List NetworkModelFieldId
  | .Tcp, _ => TcpModelFieldId.all.map NetworkModelFieldId.Tcp
  | .Udp, _ => UdpModelFieldId.all.map NetworkModelFieldId.Udp
  | .Udp6, _ => Udp6ModelFieldId.all.map NetworkModelFieldId.Udp6

instance : AggField NetworkModelFieldId TransportAggField := ⟨TransportAggField.expand⟩

/-- `TransportOptionField`. -/
abbrev TransportOptionField := DumpOptionField NetworkModelFieldId TransportAggField

/-- `DEFAULT_TRANSPORT_FIELDS` (from the source). -/
def DEFAULT_TRANSPORT_FIELDS : List TransportOptionField :=
  [ .Unit (.Common .Datetime),
    .Agg .Tcp,
    .Agg .Udp,
    .Agg .Udp6,
    .Unit (.Common .Timestamp) ]

/-- The transport option-field renderer. -/
def TransportOptionField.to_string (f : TransportOptionField) : String :=
  DumpOptionField.to_string NetworkModelFieldId.to_string TransportAggField.to_string f

/-! ## Generated long help strings -/

/-- Concatenation of a list of string segments; a `format!` template with its
interpolated values is the concatenation of its literal and interpolated
segments in order. -/
def concatAll : List String → String
  | [] => ""
  | s :: rest => s ++ concatAll rest

/-- `SYSTEM_ABOUT` (from the source). -/
def SYSTEM_ABOUT : String := "Dump system stats"

/-- `SYSTEM_LONG_ABOUT` (from the source): the generated about message for
System dump, as the ordered segments of its `format!` template. -/
def SYSTEM_LONG_ABOUT : String := concatAll
  [ SYSTEM_ABOUT,
    "\n\n********************** Available fields **********************\n\n",
    join_map CommonField.to_string CommonField.all, ", ",
    join_map SystemModelFieldId.to_string SystemModelFieldId.all,
    "\n\n********************** Aggregated fields **********************\n\n* cpu: includes [",
    join_map SystemModelFieldId.to_string (SystemAggField.Cpu.expand false),
    "].\n\n* mem: includes [",
    join_map SystemModelFieldId.to_string (SystemAggField.Mem.expand false),
    "].\n\n* vm: includes [",
    join_map SystemModelFieldId.to_string (SystemAggField.Vm.expand false),
    "].\n\n* stat: includes [",
    join_map SystemModelFieldId.to_string (SystemAggField.Stat.expand false),
    "].\n\n* --detail: includes [<agg_field>.*] for each given aggregated field.\n\n* --default: includes [",
    join_map SystemOptionField.to_string DEFAULT_SYSTEM_FIELDS,
    "].\n\n* --everything: includes everything (equivalent to --default --detail).\n\n********************** Example Commands **********************\n\n$ below dump system -b \"08:30:00\" -e \"08:30:30\" -f datetime vm hostname -O csv\n\n" ]

/-- `DISK_ABOUT` (from the source). -/
def DISK_ABOUT : String := "Dump disk stats"

/-- `DISK_LONG_ABOUT` (from the source), as the ordered segments of its
`format!` template. -/
def DISK_LONG_ABOUT : String := concatAll
  [ DISK_ABOUT,
    "\n\n********************** Available fields **********************\n\n",
    join_map CommonField.to_string CommonField.all, ", ",
    join_map SingleDiskModelFieldId.to_string SingleDiskModelFieldId.all,
    "\n\n********************** Aggregated fields **********************\n\n* read: includes [",
    join_map SingleDiskModelFieldId.to_string (DiskAggField.Read.expand false),
    "].\n\n* write: includes [",
    join_map SingleDiskModelFieldId.to_string (DiskAggField.Write.expand false),
    "].\n\n* discard: includes [",
    join_map SingleDiskModelFieldId.to_string (DiskAggField.Discard.expand false),
    "].\n\n* fs_info: includes [",
    join_map SingleDiskModelFieldId.to_string (DiskAggField.FsInfo.expand false),
    "].\n\n* --detail: no effect.\n\n* --default: includes [",
    join_map DiskOptionField.to_string DEFAULT_DISK_FIELDS,
    "].\n\n* --everything: includes everything (equivalent to --default --detail).\n\n********************** Example Commands **********************\n\nSimple example:\n\n$ below dump disk -b \"08:30:00\" -e \"08:30:30\" -f read write discard -O csv\n\nOutput stats for all \"nvme0*\" matched disk from 08:30:00 to 08:30:30:\n\n$ below dump disk -b \"08:30:00\" -e \"08:30:30\" -s name -F nvme0* -O json\n\nOutput stats for top 5 read partitions for each time slice from 08:30:00 to 08:30:30:\n\n$ below dump disk -b \"08:30:00\" -e \"08:30:30\" -s read_bytes_per_sec --rsort --top 5\n\n" ]

/-- `BTRFS_ABOUT` (from the source). -/
def BTRFS_ABOUT : String := "Dump btrfs Stats"

/-- `BTRFS_LONG_ABOUT` (from the source), as the ordered segments of its
`format!` template. -/
def BTRFS_LONG_ABOUT : String := concatAll
  [ BTRFS_ABOUT,
    "\n\n********************** Available fields **********************\n\n",
    join_map CommonField.to_string CommonField.all, ", ",
    join_map BtrfsModelFieldId.to_string BtrfsModelFieldId.all,
    "\n\n********************** Aggregated fields **********************\n\n* usage: includes [",
    join_map BtrfsModelFieldId.to_string (BtrfsAggField.DiskUsage.expand false),
    "].\n\n* --detail: no effect.\n\n* --default: includes [",
    join_map BtrfsOptionField.to_string DEFAULT_BTRFS_FIELDS,
    "].\n\n* --everything: includes everything (equivalent to --default --detail).\n\n********************** Example Commands **********************\n\nSimple example:\n\n$ below dump btrfs -b \"08:30:00\" -e \"08:30:30\" -f usage -O csv\n\nOutput stats for top 5 subvolumes for each time slice from 08:30:00 to 08:30:30:\n\n$ below dump btrfs -b \"08:30:00\" -e \"08:30:30\" -s disk_bytes --rsort --top 5\n\n" ]

/-- `PROCESS_ABOUT` (from the source). -/
def PROCESS_ABOUT : String := "Dump process stats"

/-- `PROCESS_LONG_ABOUT` (from the source), as the ordered segments of its
`format!` template. -/
def PROCESS_LONG_ABOUT : String := concatAll
  [ PROCESS_ABOUT,
    "\n\n********************** Available fields **********************\n\n",
    join_map CommonField.to_string CommonField.all, ", ",
    join_map SingleProcessModelFieldId.to_string SingleProcessModelFieldId.all,
    "\n\n********************** Aggregated fields **********************\n\n* cpu: includes [",
    join_map SingleProcessModelFieldId.to_string (ProcessAggField.Cpu.expand false),
    "].\n\n* mem: includes [",
    join_map SingleProcessModelFieldId.to_string (ProcessAggField.Mem.expand false),
    "].\n\n* io: includes [",
    join_map SingleProcessModelFieldId.to_string (ProcessAggField.Io.expand false),
    "].\n\n* --detail: includes [<agg_field>.*] for each given aggregated field.\n\n* --default: includes [",
    join_map ProcessOptionField.to_string DEFAULT_PROCESS_FIELDS,
    "].\n\n* --everything: includes everything (equivalent to --default --detail).\n\n********************** Example Commands **********************\n\nSimple example:\n\n$ below dump process -b \"08:30:00\" -e \"08:30:30\" -f comm cpu io.rwbytes_per_sec -O csv\n\nOutput stats for all \"below*\" matched processes from 08:30:00 to 08:30:30:\n\n$ below dump process -b \"08:30:00\" -e \"08:30:30\" -s comm -F below* -O json\n\nOutput stats for top 5 CPU intense processes for each time slice from 08:30:00 to 08:30:30:\n\n$ below dump process -b \"08:30:00\" -e \"08:30:30\" -s cpu.usage_pct --rsort --top 5\n\n" ]

/-- `CGROUP_ABOUT` (from the source). -/
def CGROUP_ABOUT : String := "Dump cgroup stats"

/-- `CGROUP_LONG_ABOUT` (from the source), as the ordered segments of its
`format!` template. -/
def CGROUP_LONG_ABOUT : String := concatAll
  [ CGROUP_ABOUT,
    "\n\n********************** Available fields **********************\n\n",
    join_map CommonField.to_string CommonField.all, ", ",
    join_map SingleCgroupModelFieldId.to_string SingleCgroupModelFieldId.all,
    "\n\n********************** Aggregated fields **********************\n\n* cpu: includes [",
    join_map SingleCgroupModelFieldId.to_string (CgroupAggField.Cpu.expand false),
    "].\n\n* mem: includes [",
    join_map SingleCgroupModelFieldId.to_string (CgroupAggField.Mem.expand false),
    "].\n\n* io: includes [",
    join_map SingleCgroupModelFieldId.to_string (CgroupAggField.Io.expand false),
    "].\n\n* pressure: includes [",
    join_map SingleCgroupModelFieldId.to_string (CgroupAggField.Pressure.expand false),
    "].\n\n* --detail: includes [<agg_field>.*] for each given aggregated field.\n\n* --default: includes [",
    join_map CgroupOptionField.to_string DEFAULT_CGROUP_FIELDS,
    "].\n\n* --everything: includes everything (equivalent to --default --detail).\n\n********************** Example Commands **********************\n\nSimple example:\n\n$ below dump cgroup -b \"08:30:00\" -e \"08:30:30\" -f name cpu -O csv\n\nOutput stats for all cgroups matching pattern \"below*\" for time slices\nfrom 08:30:00 to 08:30:30:\n\n$ below dump cgroup -b \"08:30:00\" -e \"08:30:30\" -s name -F below* -O json\n\nOutput stats for top 5 CPU intense cgroups for each time slice\nfrom 08:30:00 to 08:30:30 recursively:\n\n$ below dump cgroup -b \"08:30:00\" -e \"08:30:30\" -s cpu.usage_pct --rsort --top 5\n\n" ]

/-- `IFACE_ABOUT` (from the source). -/
def IFACE_ABOUT : String := "Dump the link layer iface stats"

/-- `IFACE_LONG_ABOUT` (from the source), as the ordered segments of its
`format!` template. -/
def IFACE_LONG_ABOUT : String := concatAll
  [ IFACE_ABOUT,
    "\n\n********************** Available fields **********************\n\n",
    join_map CommonField.to_string CommonField.all, ", ",
    join_map SingleNetModelFieldId.to_string SingleNetModelFieldId.all,
    "\n\n********************** Aggregated fields **********************\n\n* rate: includes [",
    join_map SingleNetModelFieldId.to_string (IfaceAggField.Rate.expand false),
    "].\n\n* rx: includes [",
    join_map SingleNetModelFieldId.to_string (IfaceAggField.Rx.expand false),
    "].\n\n* tx: includes [",
    join_map SingleNetModelFieldId.to_string (IfaceAggField.Tx.expand false),
    "].\n\n* --detail: no effect.\n\n* --default: includes [",
    join_map IfaceOptionField.to_string DEFAULT_IFACE_FIELDS,
    "].\n\n* --everything: includes everything (equivalent to --default --detail).\n\n********************** Example Commands **********************\n\nSimple example:\n\n$ below dump iface -b \"08:30:00\" -e \"08:30:30\" -f interface rate -O csv\n\nOutput stats for all iface stats matching pattern \"eth*\" for time slices\nfrom 08:30:00 to 08:30:30:\n\n$ below dump iface -b \"08:30:00\" -e \"08:30:30\" -s interface -F eth* -O json\n\n" ]

/-- `NETWORK_ABOUT` (from the source). -/
def NETWORK_ABOUT : String := "Dump the network layer stats including ip and icmp"

/-- `NETWORK_LONG_ABOUT` (from the source), as the ordered segments of its
`format!` template. -/
def NETWORK_LONG_ABOUT : String := concatAll
  [ NETWORK_ABOUT,
    "\n\n********************** Available fields **********************\n\n",
    join_map CommonField.to_string CommonField.all, ", ",
    join_map NetworkModelFieldId.to_string NetworkModelFieldId.all,
    "\n\n********************** Aggregated fields **********************\n\n* ip: includes [",
    join_map NetworkModelFieldId.to_string (NetworkAggField.Ip.expand false),
    "].\n\n* ip6: includes [",
    join_map NetworkModelFieldId.to_string (NetworkAggField.Ip6.expand false),
    "].\n\n* icmp: includes [",
    join_map NetworkModelFieldId.to_string (NetworkAggField.Icmp.expand false),
    "].\n\n* icmp6: includes [",
    join_map NetworkModelFieldId.to_string (NetworkAggField.Icmp6.expand false),
    "].\n\n* --detail: no effect.\n\n* --default: includes [",
    join_map NetworkOptionField.to_string DEFAULT_NETWORK_FIELDS,
    "].\n\n* --everything: includes everything (equivalent to --default --detail).\n\n********************** Example Commands **********************\n\nExample:\n\n$ below dump network -b \"08:30:00\" -e \"08:30:30\" -f ip ip6 -O json\n\n" ]

/-- `TRANSPORT_ABOUT` (from the source). -/
def TRANSPORT_ABOUT : String := "Dump the transport layer stats including tcp and udp"

/-- `TRANSPORT_LONG_ABOUT` (from the source), as the ordered segments of its
`format!` template. -/
def TRANSPORT_LONG_ABOUT : String := concatAll
  [ TRANSPORT_ABOUT,
    "\n\n********************** Available fields **********************\n\n",
    join_map CommonField.to_string CommonField.all, ", ",
    join_map NetworkModelFieldId.to_string NetworkModelFieldId.all,
    ".\n\n********************** Aggregated fields **********************\n\n* tcp: includes [",
    join_map NetworkModelFieldId.to_string (TransportAggField.Tcp.expand false),
    "].\n\n* udp: includes [",
    join_map NetworkModelFieldId.to_string (TransportAggField.Udp.expand false),
    "].\n\n* udp6: includes [",
    join_map NetworkModelFieldId.to_string (TransportAggField.Udp6.expand false),
    "].\n\n* --detail: no effect.\n\n* --default: includes [",
    join_map TransportOptionField.to_string DEFAULT_TRANSPORT_FIELDS,
    "].\n\n* --everything: includes everything (equivalent to --default --detail).\n\n********************** Example Commands **********************\n\nExample:\n\n$ below dump transport -b \"08:30:00\" -e \"08:30:30\" -f tcp udp -O json\n\n" ]

/-- `pat` occurs as a contiguous substring of `s`. -/
def Contains (pat s : String) : Prop :=
  ∃ l r : List Char, s.data = l ++ pat.data ++ r

/-! ## Substring lemmas -/

theorem Contains.refl (s : String) : Contains s s :=
  ⟨[], [], by simp⟩

theorem Contains.append_left {p s : String} (t : String) (h : Contains p s) :
    Contains p (t ++ s) := by
  obtain ⟨l, r, hs⟩ := h
  exact ⟨t.data ++ l, r, by simp [String.data_append, hs]⟩

theorem Contains.append_right {p s : String} (t : String) (h : Contains p s) :
    Contains p (s ++ t) := by
  obtain ⟨l, r, hs⟩ := h
  exact ⟨l, r ++ t.data, by simp [String.data_append, hs]⟩

/-- A segment's substring is a substring of the whole concatenation. -/
theorem contains_concatAll {p seg : String} :
    ∀ {segs : List String}, seg ∈ segs → Contains p seg →
      Contains p (concatAll segs) := by
  intro segs
  induction segs with
  | nil => intro hm; cases hm
  | cons s rest ih =>
    intro hm hc
    rcases List.mem_cons.mp hm with h | h
    · subst h
      exact (hc.append_right (concatAll rest))
    · exact ((ih h hc).append_left s)

/-- A member of the joined list is a substring of the join. -/
theorem contains_join {s : String} :
    ∀ {l : List String}, s ∈ l → Contains s (join l) := by
  intro l
  induction l with
  | nil => intro hm; cases hm
  | cons x rest ih =>
    intro hm
    rcases List.mem_cons.mp hm with h | h
    · subst h
      cases rest with
      | nil => exact Contains.refl s
      | cons y t =>
        show Contains s (s ++ ", " ++ join (y :: t))
        exact ((Contains.refl s).append_right ", ").append_right (join (y :: t))
    · cases rest with
      | nil => cases h
      | cons y t =>
        show Contains s (x ++ ", " ++ join (y :: t))
        exact (ih h).append_left (x ++ ", ")

/-- A member's rendering is a substring of the mapped join. -/
theorem contains_join_map {α : Type} (f : α → String) {x : α} {l : List α}
    (hm : x ∈ l) : Contains (f x) (join_map f l) :=
  contains_join (List.mem_map_of_mem f hm)

/-! ## Completeness of the modelled enumerations -/

theorem common_field_mem_all (x : CommonField) : x ∈ CommonField.all := by
  revert x; decide

theorem system_field_mem_all (x : SystemModelFieldId) :
    x ∈ SystemModelFieldId.all := by
  revert x; decide

theorem disk_field_mem_all (x : SingleDiskModelFieldId) :
    x ∈ SingleDiskModelFieldId.all := by
  revert x; decide

theorem btrfs_field_mem_all (x : BtrfsModelFieldId) :
    x ∈ BtrfsModelFieldId.all := by
  revert x; decide

theorem process_field_mem_all (x : SingleProcessModelFieldId) :
    x ∈ SingleProcessModelFieldId.all := by
  revert x; decide

theorem cgroup_field_mem_all (x : SingleCgroupModelFieldId) :
    x ∈ SingleCgroupModelFieldId.all := by
  revert x; decide

theorem net_field_mem_all (x : SingleNetModelFieldId) :
    x ∈ SingleNetModelFieldId.all := by
  revert x; decide

theorem network_field_mem_all (x : NetworkModelFieldId) :
    x ∈ NetworkModelFieldId.all := by
  revert x; decide

/-! ## Claims -/

/-- Claim C1: `DumpOptionField::from_str` resolves a token in strict priority
order — Common Field, then Aggregate Group, then Field Identifier — returning
the first success; a token that parses as a Common Field resolves to
`Unit(Common)` whatever the other two parsers would say, and a token that
parses as an Aggregate Group resolves to `Agg` whatever the Field Identifier
parser would say. -/
theorem from_str_priority_order {F A : Type}
    (agg_from_str : String → Option A) (field_from_str : String → Option F)
    (s : String) :
    (∀ c, CommonField.from_str s = some c →
      DumpOptionField.from_str agg_from_str field_from_str s
        = .ok (.Unit (.Common c))) ∧
    (∀ a, CommonField.from_str s = none → agg_from_str s = some a →
      DumpOptionField.from_str agg_from_str field_from_str s = .ok (.Agg a)) ∧
    (∀ f, CommonField.from_str s = none → agg_from_str s = none →
      field_from_str s = some f →
      DumpOptionField.from_str agg_from_str field_from_str s
        = .ok (.Unit (.FieldId f))) := by
  refine ⟨?_, ?_, ?_⟩ <;> intros <;> simp [DumpOptionField.from_str, *]

/-- The accumulator of `expand_fields`' fold distributes over the flattening. -/
theorem expand_fields_foldl_acc {F A : Type} [AggField F A]
    (fields : List (DumpOptionField F A)) (detail : Bool)
    (acc : List (DumpField F)) :
    fields.foldl
        (fun res field =>
          match field with
          | .Unit u => res ++ [u]
          | .Agg agg => res ++ (AggField.expand agg detail).map DumpField.FieldId)
        acc
      = acc ++ fields.flatMap (fun field =>
          match field with
          | .Unit u => [u]
          | .Agg agg => (AggField.expand agg detail).map DumpField.FieldId) := by
  induction fields generalizing acc with
  | nil => simp
  | cons f rest ih => cases f <;> simp [ih, List.append_assoc]

/-- Claim C2: `expand_fields` is exactly the left-to-right in-place
flattening — each `Unit` contributes its own leaf unchanged, each `Agg`
contributes `agg.expand(detail)` wrapped as `FieldId` leaves in the group's
internal order — and it distributes over list concatenation, so repeated
fields or overlapping groups yield the corresponding duplicates in the same
relative order (no deduplication). -/
theorem expand_fields_flattening {F A : Type} [AggField F A]
    (fields : List (DumpOptionField F A)) (detail : Bool) :
    (expand_fields fields detail
      = fields.flatMap (fun field =>
          match field with
          | .Unit u => [u]
          | .Agg agg => (AggField.expand agg detail).map DumpField.FieldId)) ∧
    (∀ pre post : List (DumpOptionField F A),
      expand_fields (pre ++ post) detail
        = expand_fields pre detail ++ expand_fields post detail) := by
  constructor
  · simpa using expand_fields_foldl_acc fields detail []
  · intro pre post
    simp [expand_fields, expand_fields_foldl_acc, List.flatMap_append]

/-- Claim C3: in the system domain, parsing
`["datetime", "cpu", "hostname"]` and expanding with `detail = false` yields
exactly `[Common(Datetime), FieldId(Cpu(UsagePct)), FieldId(Cpu(UserPct)),
FieldId(Cpu(SystemPct)), FieldId(Hostname)]`. -/
theorem system_scenario_datetime_cpu_hostname :
    ((["datetime", "cpu", "hostname"] : List String).mapM system_from_str
      = Except.ok
          ([DumpOptionField.Unit (DumpField.Common CommonField.Datetime),
            DumpOptionField.Agg SystemAggField.Cpu,
            DumpOptionField.Unit (DumpField.FieldId SystemModelFieldId.Hostname)] :
            List SystemOptionField)) ∧
    (expand_fields
        [DumpOptionField.Unit (DumpField.Common CommonField.Datetime),
         DumpOptionField.Agg SystemAggField.Cpu,
         DumpOptionField.Unit (DumpField.FieldId SystemModelFieldId.Hostname)]
        false
      = [DumpField.Common CommonField.Datetime,
         DumpField.FieldId (SystemModelFieldId.Cpu .UsagePct),
         DumpField.FieldId (SystemModelFieldId.Cpu .UserPct),
         DumpField.FieldId (SystemModelFieldId.Cpu .SystemPct),
         DumpField.FieldId SystemModelFieldId.Hostname]) := by
  exact ⟨rfl, rfl⟩

/-- Claim C4: every aggregate group of every domain, under both detail
values, expands to a non-empty sequence of fields of that domain's full
enumeration, and misses at least one field of that enumeration (a strict
subset). -/
theorem agg_expand_nonempty_strict_subset :
    (∀ (a : SystemAggField) (d : Bool),
      a.expand d ≠ [] ∧ (∀ f ∈ a.expand d, f ∈ SystemModelFieldId.all) ∧
      ∃ f ∈ SystemModelFieldId.all, f ∉ a.expand d) ∧
    (∀ (a : DiskAggField) (d : Bool),
      a.expand d ≠ [] ∧ (∀ f ∈ a.expand d, f ∈ SingleDiskModelFieldId.all) ∧
      ∃ f ∈ SingleDiskModelFieldId.all, f ∉ a.expand d) ∧
    (∀ (a : BtrfsAggField) (d : Bool),
      a.expand d ≠ [] ∧ (∀ f ∈ a.expand d, f ∈ BtrfsModelFieldId.all) ∧
      ∃ f ∈ BtrfsModelFieldId.all, f ∉ a.expand d) ∧
    (∀ (a : ProcessAggField) (d : Bool),
      a.expand d ≠ [] ∧ (∀ f ∈ a.expand d, f ∈ SingleProcessModelFieldId.all) ∧
      ∃ f ∈ SingleProcessModelFieldId.all, f ∉ a.expand d) ∧
    (∀ (a : CgroupAggField) (d : Bool),
      a.expand d ≠ [] ∧ (∀ f ∈ a.expand d, f ∈ SingleCgroupModelFieldId.all) ∧
      ∃ f ∈ SingleCgroupModelFieldId.all, f ∉ a.expand d) ∧
    (∀ (a : IfaceAggField) (d : Bool),
      a.expand d ≠ [] ∧ (∀ f ∈ a.expand d, f ∈ SingleNetModelFieldId.all) ∧
      ∃ f ∈ SingleNetModelFieldId.all, f ∉ a.expand d) ∧
    (∀ (a : NetworkAggField) (d : Bool),
      a.expand d ≠ [] ∧ (∀ f ∈ a.expand d, f ∈ NetworkModelFieldId.all) ∧
      ∃ f ∈ NetworkModelFieldId.all, f ∉ a.expand d) ∧
    (∀ (a : TransportAggField) (d : Bool),
      a.expand d ≠ [] ∧ (∀ f ∈ a.expand d, f ∈ NetworkModelFieldId.all) ∧
      ∃ f ∈ NetworkModelFieldId.all, f ∉ a.expand d) := by
  refine ⟨?_, ?_, ?_, ?_, ?_, ?_, ?_, ?_⟩ <;> exact fun a d => by
    cases a <;> cases d <;> decide

/-- Claim C5, counterexample to the claimed error text: the unknown token
`"bogus_field"` fails to resolve in the system domain with the error message
`"Variant not found: bogus_field"`, which is not the claimed
`"unrecognized field: bogus_field"`. -/
theorem from_str_error_text_counterexample :
    system_from_str "bogus_field" = .error "Variant not found: bogus_field" ∧
    ("Variant not found: bogus_field" : String)
      ≠ "unrecognized field: bogus_field" := by
  exact ⟨rfl, by decide⟩

/-- Claim C5 as amended: parsing fails iff the token resolves in none of the
three namespaces, and the error is `"Variant not found: "` followed by the
original token text (the source's `bail!("Variant not found: {}", s)`) rather
than an "unrecognized field" message. -/
theorem from_str_fails_iff_all_namespaces_fail {F A : Type}
    (agg_from_str : String → Option A) (field_from_str : String → Option F)
    (s : String) :
    (∀ e, DumpOptionField.from_str agg_from_str field_from_str s = .error e →
      e = "Variant not found: " ++ s) ∧
    (DumpOptionField.from_str agg_from_str field_from_str s
        = .error ("Variant not found: " ++ s) ↔
      CommonField.from_str s = none ∧ agg_from_str s = none ∧
        field_from_str s = none) := by
  unfold DumpOptionField.from_str
  rcases h₁ : CommonField.from_str s with _ | c <;>
    rcases h₂ : agg_from_str s with _ | a <;>
    rcases h₃ : field_from_str s with _ | f <;> simp

/-- Claim C6: the system domain's full (`detail = true`) cpu expansion is the
full `SingleCpuModelFieldId` enumeration in declared order with exactly the
per-instance `Idx` field removed, each element wrapped as
`SystemModelFieldId::Cpu`. -/
theorem system_cpu_full_expansion_excludes_idx :
    SystemAggField.expand .Cpu true
      = (SingleCpuModelFieldId.all.erase .Idx).map SystemModelFieldId.Cpu ∧
    SingleCpuModelFieldId.Idx ∈ SingleCpuModelFieldId.all ∧
    SystemModelFieldId.Cpu .Idx ∉ SystemAggField.expand .Cpu true := by
  decide

/-- Claim C7: for every aggregate group of every domain, the curated
(`detail = false`) expansion is a subset of the full (`detail = true`)
expansion. -/
theorem agg_expand_detail_monotone :
    (∀ a : SystemAggField, ∀ f ∈ a.expand false, f ∈ a.expand true) ∧
    (∀ a : DiskAggField, ∀ f ∈ a.expand false, f ∈ a.expand true) ∧
    (∀ a : BtrfsAggField, ∀ f ∈ a.expand false, f ∈ a.expand true) ∧
    (∀ a : ProcessAggField, ∀ f ∈ a.expand false, f ∈ a.expand true) ∧
    (∀ a : CgroupAggField, ∀ f ∈ a.expand false, f ∈ a.expand true) ∧
    (∀ a : IfaceAggField, ∀ f ∈ a.expand false, f ∈ a.expand true) ∧
    (∀ a : NetworkAggField, ∀ f ∈ a.expand false, f ∈ a.expand true) ∧
    (∀ a : TransportAggField, ∀ f ∈ a.expand false, f ∈ a.expand true) := by
  refine ⟨?_, ?_, ?_, ?_, ?_, ?_, ?_, ?_⟩ <;> exact fun a => by
    cases a <;> decide

/-- Claim C8: in the disk, btrfs, iface, network and transport domains the
detail flag has no effect — `expand(true)` equals `expand(false)` for every
group (their `expand` implementations ignore `_detail`). -/
theorem agg_expand_ignores_detail_in_five_domains :
    (∀ a : DiskAggField, a.expand true = a.expand false) ∧
    (∀ a : BtrfsAggField, a.expand true = a.expand false) ∧
    (∀ a : IfaceAggField, a.expand true = a.expand false) ∧
    (∀ a : NetworkAggField, a.expand true = a.expand false) ∧
    (∀ a : TransportAggField, a.expand true = a.expand false) := by
  refine ⟨?_, ?_, ?_, ?_, ?_⟩ <;> exact fun a => by cases a <;> decide

/-- Claim C9: each domain's generated long help string contains, as a
substring, the canonical rendered name of every Field Identifier of the
domain's full enumeration, of every Common Field, and of every Aggregate
Group of the domain (the group names reach the text through the rendered
default list, which mentions every group of its domain). -/
theorem long_about_contains_every_name :
    (∀ f : SystemModelFieldId, Contains f.to_string SYSTEM_LONG_ABOUT) ∧
    (∀ c : CommonField, Contains c.to_string SYSTEM_LONG_ABOUT) ∧
    (∀ a : SystemAggField, Contains a.to_string SYSTEM_LONG_ABOUT) ∧
    (∀ f : SingleDiskModelFieldId, Contains f.to_string DISK_LONG_ABOUT) ∧
    (∀ c : CommonField, Contains c.to_string DISK_LONG_ABOUT) ∧
    (∀ a : DiskAggField, Contains a.to_string DISK_LONG_ABOUT) ∧
    (∀ f : BtrfsModelFieldId, Contains f.to_string BTRFS_LONG_ABOUT) ∧
    (∀ c : CommonField, Contains c.to_string BTRFS_LONG_ABOUT) ∧
    (∀ a : BtrfsAggField, Contains a.to_string BTRFS_LONG_ABOUT) ∧
    (∀ f : SingleProcessModelFieldId, Contains f.to_string PROCESS_LONG_ABOUT) ∧
    (∀ c : CommonField, Contains c.to_string PROCESS_LONG_ABOUT) ∧
    (∀ a : ProcessAggField, Contains a.to_string PROCESS_LONG_ABOUT) ∧
    (∀ f : SingleCgroupModelFieldId, Contains f.to_string CGROUP_LONG_ABOUT) ∧
    (∀ c : CommonField, Contains c.to_string CGROUP_LONG_ABOUT) ∧
    (∀ a : CgroupAggField, Contains a.to_string CGROUP_LONG_ABOUT) ∧
    (∀ f : SingleNetModelFieldId, Contains f.to_string IFACE_LONG_ABOUT) ∧
    (∀ c : CommonField, Contains c.to_string IFACE_LONG_ABOUT) ∧
    (∀ a : IfaceAggField, Contains a.to_string IFACE_LONG_ABOUT) ∧
    (∀ f : NetworkModelFieldId, Contains f.to_string NETWORK_LONG_ABOUT) ∧
    (∀ c : CommonField, Contains c.to_string NETWORK_LONG_ABOUT) ∧
    (∀ a : NetworkAggField, Contains a.to_string NETWORK_LONG_ABOUT) ∧
    (∀ f : NetworkModelFieldId, Contains f.to_string TRANSPORT_LONG_ABOUT) ∧
    (∀ c : CommonField, Contains c.to_string TRANSPORT_LONG_ABOUT) ∧
    (∀ a : TransportAggField, Contains a.to_string TRANSPORT_LONG_ABOUT) := by
  refine ⟨?_, ?_, ?_, ?_, ?_, ?_, ?_, ?_, ?_, ?_, ?_, ?_, ?_, ?_, ?_, ?_, ?_,
    ?_, ?_, ?_, ?_, ?_, ?_, ?_⟩
  · intro f
    unfold SYSTEM_LONG_ABOUT
    exact contains_concatAll (by simp)
      (contains_join_map SystemModelFieldId.to_string (system_field_mem_all f))
  · intro c
    unfold SYSTEM_LONG_ABOUT
    exact contains_concatAll (by simp)
      (contains_join_map CommonField.to_string (common_field_mem_all c))
  · intro a
    unfold SYSTEM_LONG_ABOUT
    have hm : DumpOptionField.Agg a ∈ DEFAULT_SYSTEM_FIELDS := by
      cases a <;> decide
    exact contains_concatAll (by simp)
      (contains_join_map SystemOptionField.to_string hm)
  · intro f
    unfold DISK_LONG_ABOUT
    exact contains_concatAll (by simp)
      (contains_join_map SingleDiskModelFieldId.to_string
        (disk_field_mem_all f))
  · intro c
    unfold DISK_LONG_ABOUT
    exact contains_concatAll (by simp)
      (contains_join_map CommonField.to_string (common_field_mem_all c))
  · intro a
    unfold DISK_LONG_ABOUT
    have hm : DumpOptionField.Agg a ∈ DEFAULT_DISK_FIELDS := by
      cases a <;> decide
    exact contains_concatAll (by simp)
      (contains_join_map DiskOptionField.to_string hm)
  · intro f
    unfold BTRFS_LONG_ABOUT
    exact contains_concatAll (by simp)
      (contains_join_map BtrfsModelFieldId.to_string (btrfs_field_mem_all f))
  · intro c
    unfold BTRFS_LONG_ABOUT
    exact contains_concatAll (by simp)
      (contains_join_map CommonField.to_string (common_field_mem_all c))
  · intro a
    unfold BTRFS_LONG_ABOUT
    have hm : DumpOptionField.Agg a ∈ DEFAULT_BTRFS_FIELDS := by
      cases a
      decide
    exact contains_concatAll (by simp)
      (contains_join_map BtrfsOptionField.to_string hm)
  · intro f
    unfold PROCESS_LONG_ABOUT
    exact contains_concatAll (by simp)
      (contains_join_map SingleProcessModelFieldId.to_string
        (process_field_mem_all f))
  · intro c
    unfold PROCESS_LONG_ABOUT
    exact contains_concatAll (by simp)
      (contains_join_map CommonField.to_string (common_field_mem_all c))
  · intro a
    unfold PROCESS_LONG_ABOUT
    have hm : DumpOptionField.Agg a ∈ DEFAULT_PROCESS_FIELDS := by
      cases a <;> decide
    exact contains_concatAll (by simp)
      (contains_join_map ProcessOptionField.to_string hm)
  · intro f
    unfold CGROUP_LONG_ABOUT
    exact contains_concatAll (by simp)
      (contains_join_map SingleCgroupModelFieldId.to_string
        (cgroup_field_mem_all f))
  · intro c
    unfold CGROUP_LONG_ABOUT
    exact contains_concatAll (by simp)
      (contains_join_map CommonField.to_string (common_field_mem_all c))
  · intro a
    unfold CGROUP_LONG_ABOUT
    have hm : DumpOptionField.Agg a ∈ DEFAULT_CGROUP_FIELDS := by
      cases a <;> decide
    exact contains_concatAll (by simp)
      (contains_join_map CgroupOptionField.to_string hm)
  · intro f
    unfold IFACE_LONG_ABOUT
    exact contains_concatAll (by simp)
      (contains_join_map SingleNetModelFieldId.to_string
        (net_field_mem_all f))
  · intro c
    unfold IFACE_LONG_ABOUT
    exact contains_concatAll (by simp)
      (contains_join_map CommonField.to_string (common_field_mem_all c))
  · intro a
    unfold IFACE_LONG_ABOUT
    have hm : DumpOptionField.Agg a ∈ DEFAULT_IFACE_FIELDS := by
      cases a <;> decide
    exact contains_concatAll (by simp)
      (contains_join_map IfaceOptionField.to_string hm)
  · intro f
    unfold NETWORK_LONG_ABOUT
    exact contains_concatAll (by simp)
      (contains_join_map NetworkModelFieldId.to_string
        (network_field_mem_all f))
  · intro c
    unfold NETWORK_LONG_ABOUT
    exact contains_concatAll (by simp)
      (contains_join_map CommonField.to_string (common_field_mem_all c))
  · intro a
    unfold NETWORK_LONG_ABOUT
    have hm : DumpOptionField.Agg a ∈ DEFAULT_NETWORK_FIELDS := by
      cases a <;> decide
    exact contains_concatAll (by simp)
      (contains_join_map NetworkOptionField.to_string hm)
  · intro f
    unfold TRANSPORT_LONG_ABOUT
    exact contains_concatAll (by simp)
      (contains_join_map NetworkModelFieldId.to_string
        (network_field_mem_all f))
  · intro c
    unfold TRANSPORT_LONG_ABOUT
    exact contains_concatAll (by simp)
      (contains_join_map CommonField.to_string (common_field_mem_all c))
  · intro a
    unfold TRANSPORT_LONG_ABOUT
    have hm : DumpOptionField.Agg a ∈ DEFAULT_TRANSPORT_FIELDS := by
      cases a <;> decide
    exact contains_concatAll (by simp)
      (contains_join_map TransportOptionField.to_string hm)
